import Mathlib

/-!
Shallow embedding of `mapbox2qgis.py` (parser of Mapbox GL styles for the
QGIS vector tile layer implementation) and verification of the frozen
claims about it.

Modelling conventions:
* Deserialized JSON-like Python values are the inductive `JValue`.
  Python's `bool` is a subclass of `int`, so `isinstance(x, int)` is true
  for booleans; this is captured by `isInstInt`.
* Python exceptions become the `PyErr` error type, and every function
  that can raise returns `Except PyErr _`.
* `print` diagnostics of the layer-level functions are collected in a
  `List Diag` component of the result (as structured events, not the
  exact console text).  The single `print` inside `parse_value` (the
  unsupported-type branch) is modelled only by its `"?"` placeholder
  result: it is unreachable from every path a claim quantifies over.
* Qt/QGIS objects (`QColor`, `QgsSymbol`, `QgsVectorTileBasicRendererStyle`,
  `QgsVectorTileBasicRenderer`) are modelled as plain records holding
  exactly the data the Python code passes to them.
-/

/-- A deserialized JSON-like Python value (the values `json.loads` can
produce).  `float` carries a rational approximation of the Python float. -/
inductive JValue where
  | null : JValue
  | bool (b : Bool) : JValue
  | int (n : Int) : JValue
  | float (q : Rat) : JValue
  | str (s : String) : JValue
  | arr (l : List JValue) : JValue
  | obj (fields : List (String × JValue)) : JValue

/-- Python exceptions raised by the translated code. -/
inductive PyErr where
  | indexError : PyErr
  | typeError : PyErr
  | keyError (k : JValue) : PyErr
  | valueError (v : JValue) : PyErr
  | valueErrorMsg (msg : String) (v : JValue) : PyErr
  | assertionError : PyErr

/-- Python's `x == lit` for a string literal `lit`: true exactly when `x`
is a string equal to `lit` (for any non-string `x` the comparison is
`False`; every `==` in the source compares against a string literal). -/
def isStrEq (v : JValue) (lit : String) : Bool :=
  match v with
  | .str s => s = lit
  | _ => false

/-- Python's `isinstance(x, int)`: true for ints and for booleans
(`bool` is a subclass of `int`). -/
def isInstInt : JValue → Bool
  | .int _ => true
  | .bool _ => true
  | _ => false

/-- Python's `isinstance(x, (float, int))` (used for `fill-opacity`):
true for floats, ints and booleans. -/
def isInstFloatOrInt : JValue → Bool
  | .float _ => true
  | .int _ => true
  | .bool _ => true
  | _ => false

/-- Python's `str.join`: `pyJoin sep [a, b, c] = a ++ sep ++ b ++ sep ++ c`. -/
def pyJoin (sep : String) : List String → String
  | [] => ""
  | [s] => s
  | s :: rest => s ++ sep ++ pyJoin sep rest

/-- Decimal rendering of a Python float.  Only an approximation of
Python's float `repr` (no claim-relevant path ever prints a float). -/
def floatRepr (q : Rat) : String :=
  if q.den = 1 then toString q.num ++ ".0" else toString q

mutual
/-- Python's `str(x)` on a `JValue`.  Exact for `None`, booleans, ints
and strings (the cases the source can reach through `format`);
approximate for floats. -/
def pyStr : JValue → String
  | .null => "None"
  | .bool b => if b then "True" else "False"
  | .int n => toString n
  | .float q => floatRepr q
  | .str s => s
  | .arr l => "[" ++ pyJoin ", " (pyReprList l) ++ "]"
  | .obj fs => "\x7b" ++ pyJoin ", " (pyReprFields fs) ++ "\x7d"

/-- Python's `repr(x)`: like `str` but strings get single quotes
(embedded-quote escaping not reproduced, as in the source's own TODOs). -/
def pyRepr : JValue → String
  | .str s => "'" ++ s ++ "'"
  | v => pyStr v

def pyReprList : List JValue → List String
  | [] => []
  | v :: vs => pyRepr v :: pyReprList vs

def pyReprFields : List (String × JValue) → List String
  | [] => []
  | (k, v) :: fs => ("'" ++ k ++ "': " ++ pyRepr v) :: pyReprFields fs
end

/-- `parse_key` from the source: the reserved `$type` key becomes the
unquoted pseudo-field `_geom_type`; any other key is double-quoted via
`'"{}"'.format(json_key)` (which calls `str`). -/
def parse_key (json_key : JValue) : String :=
  if isStrEq json_key "$type" then "_geom_type"
  else "\"" ++ pyStr json_key ++ "\""

/-- The test `op in ("==", "!=", ">=", ">", "<=", "<")` from the source. -/
def isCmpOp (op : JValue) : Bool :=
  isStrEq op "==" || isStrEq op "!=" || isStrEq op ">=" || isStrEq op ">"
    || isStrEq op "<=" || isStrEq op "<"

mutual
/-- `parse_value` from the source.  An array recurses into
`parse_expression` (realized by `parse_expr_arr`, see below); a string
is single-quoted; an `isinstance(_, int)` value (ints *and* booleans)
becomes `str(value)`; anything else prints a diagnostic and returns the
placeholder `"?"`. -/
def parse_value (json_value : JValue) : Except PyErr String :=
  match json_value with
  | .arr l => parse_expr_arr (.arr l) l
  | .str s => .ok ("'" ++ s ++ "'")
  | v =>
    if isInstInt v then .ok (pyStr v)
    else .ok "?"
termination_by (sizeOf json_value, 2)

/-- Body of `parse_expression` on a sequence of elements.  `orig` is the
value `json_expr` itself, used as the payload of the final
`raise ValueError(json_expr)`; `l` is its element list (for a Python
string input, the list of its one-character strings — see
`parse_expression` below).  The operator branches are factored into the
small helpers below so that each matches one `if` arm of the source. -/
def parse_expr_arr (orig : JValue) (l : List JValue) : Except PyErr String :=
  match l with
  | [] => .error .indexError
  | op :: rest =>
    if isStrEq op "all" then parse_expr_join ") AND (" rest
    else if isStrEq op "any" then parse_expr_join ") OR (" rest
    else if isCmpOp op then
      -- we use single '=' not '=='
      parse_expr_cmp (if isStrEq op "==" then "=" else pyStr op) rest
    else if isStrEq op "has" then
      match rest with
      | [] => .error .indexError
      | k :: _ => .ok (parse_key k ++ " IS NOT NULL")
    else if isStrEq op "!has" then
      match rest with
      | [] => .error .indexError
      | k :: _ => .ok (parse_key k ++ " IS NULL")
    else if isStrEq op "in" || isStrEq op "!in" then
      parse_expr_membership (isStrEq op "in") rest
    else
      .error (.valueError orig)
termination_by (sizeOf l, 1)

/-- The `all`/`any` arms: render each operand with `parse_value` and
join with the given separator inside one outer pair of parentheses
(`"({})".format(sep.join(lst))`). -/
def parse_expr_join (sep : String) (rest : List JValue) : Except PyErr String :=
  match parse_values rest with
  | .error e => .error e
  | .ok lst => .ok ("(" ++ pyJoin sep lst ++ ")")
termination_by (sizeOf rest, 1)

/-- The comparison arm: `"{} {} {}".format(parse_key(json_expr[1]), op,
parse_value(json_expr[2]))`; a missing element raises `IndexError`. -/
def parse_expr_cmp (op2 : String) (rest : List JValue) : Except PyErr String :=
  match rest with
  | [] => .error .indexError
  | [_] => .error .indexError
  | k :: v :: _ =>
    match parse_value v with
    | .error e => .error e
    | .ok vs => .ok (parse_key k ++ " " ++ op2 ++ " " ++ vs)
termination_by (sizeOf rest, 1)

/-- The `in`/`!in` arm: key from `json_expr[1]`, values from
`json_expr[2:]`. -/
def parse_expr_membership (isIn : Bool) (rest : List JValue) : Except PyErr String :=
  match rest with
  | [] => .error .indexError
  | k :: vals =>
    let key := parse_key k
    match parse_values vals with
    | .error e => .error e
    | .ok lst =>
      if isIn then
        .ok (key ++ " IN (" ++ pyJoin ", " lst ++ ")")
      else  -- not in
        .ok ("(" ++ key ++ " IS NULL OR " ++ key ++ " NOT IN ("
             ++ pyJoin ", " lst ++ "))")
termination_by (sizeOf rest, 1)

/-- The list comprehension `[parse_value(v) for v in ...]`: left-to-right,
stopping at the first exception. -/
def parse_values : List JValue → Except PyErr (List String)
  | [] => .ok []
  | v :: vs =>
    match parse_value v with
    | .error e => .error e
    | .ok s =>
      match parse_values vs with
      | .error e => .error e
      | .ok ss => .ok (s :: ss)
termination_by l => (sizeOf l, 0)
end

/-- `parse_expression` from the source.  On a list its body runs on the
element list; on a Python string, indexing and slicing yield
one-character strings, so the body runs on the exploded characters; a
dict raises `KeyError(0)` from `json_expr[0]`; any other value is not
subscriptable (`TypeError`). -/
def parse_expression (json_expr : JValue) : Except PyErr String :=
  match json_expr with
  | .arr l => parse_expr_arr (.arr l) l
  | .str s => parse_expr_arr (.str s) (s.data.map fun c => .str (String.singleton c))
  | .obj _ => .error (.keyError (.int 0))
  | _ => .error .typeError

/-! ## Python container and number primitives used by the layer functions -/

/-- Dictionary lookup; JSON objects built by `json.loads` let a later
duplicate key overwrite an earlier one, so the *last* binding wins. -/
def lookupField : List (String × JValue) → String → Option JValue
  | [], _ => none
  | (k, v) :: fs, key =>
    match lookupField fs key with
    | some r => some r
    | none => if k = key then some v else none

/-- Python `x[key]` for a string `key`: dict lookup (`KeyError` when
missing); lists and strings reject string indices, other values are not
subscriptable (`TypeError`). -/
def pyGetItem (v : JValue) (key : String) : Except PyErr JValue :=
  match v with
  | .obj fs =>
    match lookupField fs key with
    | some r => .ok r
    | none => .error (.keyError (.str key))
  | _ => .error .typeError

/-- Naive substring test (Python `needle in haystack` on strings). -/
def strContains (hay needle : String) : Bool :=
  (List.range (hay.data.length + 1)).any fun i => needle.data.isPrefixOf (hay.data.drop i)

/-- Python `key in x` for a string `key`: key test on dicts, element
equality on lists, substring test on strings, `TypeError` otherwise. -/
def pyContains (v : JValue) (key : String) : Except PyErr Bool :=
  match v with
  | .obj fs => .ok (lookupField fs key).isSome
  | .arr l => .ok (l.any fun x => isStrEq x key)
  | .str s => .ok (strContains s key)
  | _ => .error .typeError

/-- Value of a list of decimal digit characters. -/
def digitsVal (l : List Char) : Nat :=
  l.foldl (fun acc c => 10 * acc + c.toNat - 48) 0

/-- Python `int(s)` on a string: optional surrounding whitespace and
sign, then decimal digits, else `ValueError`.  (Underscore separators
are not modelled; no input of interest contains them.) -/
def pyInt (s : String) : Except PyErr Int :=
  let t := s.trim
  let signDigits : Bool × List Char :=
    match t.data with
    | '-' :: ds => (true, ds)
    | '+' :: ds => (false, ds)
    | ds => (false, ds)
  if !signDigits.2.isEmpty && signDigits.2.all Char.isDigit then
    .ok (if signDigits.1 then -(digitsVal signDigits.2 : Int) else (digitsVal signDigits.2 : Int))
  else .error (.valueErrorMsg "invalid literal for int()" (.str s))

/-- Python `float(s)` on a string: optional whitespace/sign, decimal
digits with an optional fractional part, as an exact rational.
(Exponent forms and `inf`/`nan` are not modelled; no input of interest
uses them.) -/
def pyFloat (s : String) : Except PyErr Rat :=
  let t := s.trim
  let signBody : Bool × List Char :=
    match t.data with
    | '-' :: ds => (true, ds)
    | '+' :: ds => (false, ds)
    | ds => (false, ds)
  let intPart := signBody.2.takeWhile Char.isDigit
  let rest := signBody.2.dropWhile Char.isDigit
  let fracPart : Option (List Char) :=
    match rest with
    | [] => some []
    | '.' :: fs => if fs.all Char.isDigit then some fs else none
    | _ => none
  match fracPart with
  | some frac =>
    if intPart.isEmpty && frac.isEmpty then
      .error (.valueErrorMsg "could not convert string to float" (.str s))
    else
      let mag : Rat := (digitsVal intPart : Rat) + (digitsVal frac : Rat) / ((10 : Rat) ^ frac.length)
      .ok (if signBody.1 then -mag else mag)
  | none => .error (.valueErrorMsg "could not convert string to float" (.str s))

/-- Python `float(x)` on a value that passed `isinstance(x, (float, int))`. -/
def pyFloatOfNum : JValue → Rat
  | .int n => (n : Rat)
  | .float q => q
  | .bool b => if b then 1 else 0
  | _ => 0  -- unreachable: guarded by isInstFloatOrInt at the call site

/-- Python `s[:-1]`. -/
def strDropLast (s : String) : String := String.mk s.data.dropLast

/-- Python `s[a:-1]`. -/
def strSliceInner (s : String) (a : Nat) : String := String.mk ((s.data.drop a).dropLast)

/-! ## Colors and symbols (data passed to the Qt/QGIS collaborators) -/

/-- A `QColor` as the source constructs it: by name string, from HSL
components, or from RGB components (alpha channels already scaled to
0–255 as the source passes them). -/
inductive QColor where
  | named (name : String)
  | fromHsl (hue : Int) (sat lig : Rat) (alpha : Option Rat)
  | fromRgb (r g b : Int) (alpha : Option Rat)

/-- `parse_color` from the source: `#...` hex names, `hsla(...)`,
`hsl(...)`, `rgba(...)`, `rgb(...)`; anything else raises
`ValueError("unknown color syntax", ...)`.  An empty string raises
`IndexError` from `json_color[0]`. -/
def parse_color (json_color : String) : Except PyErr QColor :=
  match json_color.data with
  | [] => .error .indexError
  | c0 :: _ =>
    if c0 = '#' then .ok (.named json_color)
    else if json_color.startsWith "hsla" then
      match (strSliceInner json_color 5).splitOn "," with
      | [h, sa, li, al] =>
        if sa.endsWith "%" && li.endsWith "%" then
          match pyInt h with
          | .error e => .error e
          | .ok hue =>
          match pyFloat (strDropLast sa) with
          | .error e => .error e
          | .ok satP =>
          match pyFloat (strDropLast li) with
          | .error e => .error e
          | .ok ligP =>
          match pyFloat al with
          | .error e => .error e
          | .ok a =>
            .ok (.fromHsl hue (satP / 100 * 255) (ligP / 100 * 255) (some (a * 255)))
        else .error .assertionError
      | _ => .error .assertionError
    else if json_color.startsWith "hsl" then
      match (strSliceInner json_color 4).splitOn "," with
      | [h, sa, li] =>
        if sa.endsWith "%" && li.endsWith "%" then
          match pyInt h with
          | .error e => .error e
          | .ok hue =>
          match pyFloat (strDropLast sa) with
          | .error e => .error e
          | .ok satP =>
          match pyFloat (strDropLast li) with
          | .error e => .error e
          | .ok ligP =>
            .ok (.fromHsl hue (satP / 100 * 255) (ligP / 100 * 255) none)
        else .error .assertionError
      | _ => .error .assertionError
    else if json_color.startsWith "rgba" then
      match (strSliceInner json_color 5).splitOn "," with
      | [r, g, b, al] =>
        match pyInt r with
        | .error e => .error e
        | .ok rv =>
        match pyInt g with
        | .error e => .error e
        | .ok gv =>
        match pyInt b with
        | .error e => .error e
        | .ok bv =>
        match pyFloat al with
        | .error e => .error e
        | .ok a => .ok (.fromRgb rv gv bv (some (a * 255)))
      | _ => .error .assertionError
    else if json_color.startsWith "rgb" then
      match (strSliceInner json_color 4).splitOn "," with
      | [r, g, b] =>
        match pyInt r with
        | .error e => .error e
        | .ok rv =>
        match pyInt g with
        | .error e => .error e
        | .ok gv =>
        match pyInt b with
        | .error e => .error e
        | .ok bv => .ok (.fromRgb rv gv bv none)
      | _ => .error .assertionError
    else .error (.valueErrorMsg "unknown color syntax" (.str json_color))

inductive GeomType where
  | point : GeomType
  | line : GeomType
  | polygon : GeomType

/-- The default symbol of a geometry type after the setters the source
applies to its first symbol layer; `none` stands for the untouched Qt
default. -/
structure QgsSymbol where
  geom : GeomType
  color : Option QColor := none
  strokeColor : Option QColor := none
  opacity : Rat := 1

/-- A `QgsVectorTileBasicRendererStyle` after the setters the source
applies; `none` stands for a field the code never set. -/
structure TileStyle where
  geometryType : Option GeomType := none
  symbol : Option QgsSymbol := none
  styleName : Option JValue := none
  layerName : Option JValue := none
  filterExpression : String := ""
  minZoomLevel : Option JValue := none
  maxZoomLevel : Option JValue := none

/-- The `QgsVectorTileBasicRenderer` returned by `parse_layers`. -/
structure QgsVectorTileBasicRenderer where
  styles : List TileStyle

/-- Console diagnostics (`print` calls) of the layer functions, as
structured events. -/
inductive Diag where
  | skippingFillWithoutFillColor (paint : JValue)
  | skippingNonStringColor (v : JValue)
  | skippingNonFloatOpacity (v : JValue)
  | skippingLineWithoutLineColor (paint : JValue)
  | skippingUnknownLayerType (t : JValue)

/-! ## Layer extraction -/

/-- The style a `fill` layer produces. -/
def mk_fill_style (fill_color fill_outline_color : QColor) (fill_opacity : Rat) : TileStyle :=
  { geometryType := some .polygon,
    symbol := some { geom := .polygon, color := some fill_color,
                     strokeColor := some fill_outline_color, opacity := fill_opacity } }

/-- Tail of `parse_fill_layer`: the `fill-opacity` block and the symbol
construction, shared by every path of the outline block. -/
def parse_fill_opacity_and_build (json_paint : JValue) (fill_color fill_outline_color : QColor) :
    List Diag × Except PyErr (Option TileStyle) :=
  match pyContains json_paint "fill-opacity" with
  | .error e => ([], .error e)
  | .ok hasOp =>
  if hasOp then
    match pyGetItem json_paint "fill-opacity" with
    | .error e => ([], .error e)
    | .ok jop =>
    if isInstFloatOrInt jop then
      ([], .ok (some (mk_fill_style fill_color fill_outline_color (pyFloatOfNum jop))))
    else
      ([.skippingNonFloatOpacity jop],
       .ok (some (mk_fill_style fill_color fill_outline_color 1)))
  else ([], .ok (some (mk_fill_style fill_color fill_outline_color 1)))

/-- `parse_fill_layer` from the source: requires `paint['fill-color']`
to exist (else one diagnostic, no style) and to be a string (else one
diagnostic, no style); the outline color defaults to the fill color;
non-numeric `fill-opacity` is skipped with a diagnostic. -/
def parse_fill_layer (json_layer : JValue) : List Diag × Except PyErr (Option TileStyle) :=
  match pyGetItem json_layer "paint" with
  | .error e => ([], .error e)
  | .ok json_paint =>
  match pyContains json_paint "fill-color" with
  | .error e => ([], .error e)
  | .ok hasFc =>
  if !hasFc then
    ([.skippingFillWithoutFillColor json_paint], .ok none)
  else
  match pyGetItem json_paint "fill-color" with
  | .error e => ([], .error e)
  | .ok json_fill_color =>
  match json_fill_color with
  | .str fc =>
    (match parse_color fc with
     | .error e => ([], .error e)
     | .ok fill_color =>
       match pyContains json_paint "fill-outline-color" with
       | .error e => ([], .error e)
       | .ok hasOc =>
       if hasOc then
         match pyGetItem json_paint "fill-outline-color" with
         | .error e => ([], .error e)
         | .ok json_fill_outline_color =>
         match json_fill_outline_color with
         | .str oc =>
           (match parse_color oc with
            | .error e => ([], .error e)
            | .ok fill_outline_color =>
              parse_fill_opacity_and_build json_paint fill_color fill_outline_color)
         | joc =>
           let dr := parse_fill_opacity_and_build json_paint fill_color fill_color
           (.skippingNonStringColor joc :: dr.1, dr.2)
       else parse_fill_opacity_and_build json_paint fill_color fill_color)
  | jfc => ([.skippingNonStringColor jfc], .ok none)

/-- `parse_line_layer` from the source: requires `paint['line-color']`
to exist and be a string; builds a line symbol with that color. -/
def parse_line_layer (json_layer : JValue) : List Diag × Except PyErr (Option TileStyle) :=
  match pyGetItem json_layer "paint" with
  | .error e => ([], .error e)
  | .ok json_paint =>
  match pyContains json_paint "line-color" with
  | .error e => ([], .error e)
  | .ok hasLc =>
  if !hasLc then
    ([.skippingLineWithoutLineColor json_paint], .ok none)
  else
  match pyGetItem json_paint "line-color" with
  | .error e => ([], .error e)
  | .ok json_line_color =>
  match json_line_color with
  | .str lc =>
    (match parse_color lc with
     | .error e => ([], .error e)
     | .ok line_color =>
       ([], .ok (some { geometryType := some .line,
                        symbol := some { geom := .line, color := some line_color } })))
  | jlc => ([.skippingNonStringColor jlc], .ok none)

/-- One iteration of the `parse_layers` loop: `background` layers are
skipped silently before anything else is read; then id, source layer,
zoom bounds and filter are read (a missing `minzoom`/`maxzoom` becomes
the `-1` sentinel, a missing filter the empty expression string);
`fill`/`line` dispatch to their handlers, any other type is skipped
with one diagnostic; a produced style gets the layer metadata set. -/
def parse_layer_step (json_layer : JValue) : List Diag × Except PyErr (Option TileStyle) :=
  match pyGetItem json_layer "type" with
  | .error e => ([], .error e)
  | .ok layer_type =>
  if isStrEq layer_type "background" then ([], .ok none)
  else
  match pyGetItem json_layer "id" with
  | .error e => ([], .error e)
  | .ok style_id =>
  match pyGetItem json_layer "source-layer" with
  | .error e => ([], .error e)
  | .ok layer_name =>
  match pyContains json_layer "minzoom" with
  | .error e => ([], .error e)
  | .ok hasMin =>
  match (if hasMin then pyGetItem json_layer "minzoom" else .ok (.int (-1))) with
  | .error e => ([], .error e)
  | .ok min_zoom =>
  match pyContains json_layer "maxzoom" with
  | .error e => ([], .error e)
  | .ok hasMax =>
  match (if hasMax then pyGetItem json_layer "maxzoom" else .ok (.int (-1))) with
  | .error e => ([], .error e)
  | .ok max_zoom =>
  match pyContains json_layer "filter" with
  | .error e => ([], .error e)
  | .ok hasFilter =>
  let filterRes : Except PyErr String :=
    if hasFilter then
      match pyGetItem json_layer "filter" with
      | .error e => .error e
      | .ok f => parse_expression f
    else .ok ""
  match filterRes with
  | .error e => ([], .error e)
  | .ok filter_expr =>
  let dr :=
    if isStrEq layer_type "fill" then parse_fill_layer json_layer
    else if isStrEq layer_type "line" then parse_line_layer json_layer
    else ([.skippingUnknownLayerType layer_type], .ok none)
  match dr.2 with
  | .error e => (dr.1, .error e)
  | .ok none => (dr.1, .ok none)
  | .ok (some st) =>
    (dr.1, .ok (some { st with
                       styleName := some style_id
                       layerName := some layer_name
                       filterExpression := filter_expr
                       minZoomLevel := some min_zoom
                       maxZoomLevel := some max_zoom }))

/-- The `parse_layers` loop over the layer list, accumulating styles in
order and stopping at the first uncaught exception. -/
def parse_layers_go : List JValue → List Diag × Except PyErr (List TileStyle)
  | [] => ([], .ok [])
  | jl :: rest =>
    let dr := parse_layer_step jl
    match dr.2 with
    | .error e => (dr.1, .error e)
    | .ok o =>
      let dr2 := parse_layers_go rest
      (dr.1 ++ dr2.1,
       match dr2.2 with
       | .error e => .error e
       | .ok sts => .ok (match o with | some st => st :: sts | none => sts))

/-- `parse_layers` from the source: runs the loop and wraps the styles
in a `QgsVectorTileBasicRenderer`. -/
def parse_layers (json_layers : List JValue) :
    List Diag × Except PyErr QgsVectorTileBasicRenderer :=
  let dr := parse_layers_go json_layers
  (dr.1, match dr.2 with
         | .error e => .error e
         | .ok sts => .ok { styles := sts })

/-! ## Concrete inputs used by witnesses -/

/-- A minimal `background` layer. -/
def bgLayer : JValue := .obj [("type", .str "background")]

/-- A minimal valid `fill` layer. -/
def fillLayer : JValue :=
  .obj [("type", .str "fill"), ("id", .str "water"),
        ("source-layer", .str "water"), ("paint", .obj [("fill-color", .str "#00f")])]

/-- A layer of a kind the source does not handle. -/
def unknownLayer : JValue :=
  .obj [("type", .str "symbol"), ("id", .str "labels"),
        ("source-layer", .str "place"), ("paint", .obj [])]

/-- A layer whose paint object has no `fill-color`. -/
def emptyFillLayer : JValue := .obj [("paint", .obj [])]

/-- A fill layer whose filter uses an unknown operator: parsing its
filter raises, and the source catches nothing. -/
def badFilterLayer : JValue :=
  .obj [("type", .str "fill"), ("id", .str "bad"),
        ("source-layer", .str "water"),
        ("filter", .arr [.str "nope", .str "x"]),
        ("paint", .obj [("fill-color", .str "#00f")])]

/-! ## Helper lemmas -/

/-- Moving the outer parenthesis pair of the `all`/`any` rendering inside
the join: `"(" ++ (")" ++ mid ++ "(").join l ++ ")"` is the `mid`-join of
the individually parenthesized clauses, for a nonempty clause list. -/
theorem pyJoin_paren (mid : String) (l : List String) (h : l ≠ []) :
    "(" ++ pyJoin (")" ++ mid ++ "(") l ++ ")"
      = pyJoin mid (l.map fun s => "(" ++ s ++ ")") := by
  induction l with
  | nil => exact absurd rfl h
  | cons a t ih =>
    cases t with
    | nil => simp [pyJoin]
    | cons b t2 =>
      have hih := ih (by simp)
      simp only [pyJoin, List.map_cons] at hih ⊢
      rw [← hih]
      simp [String.append_assoc]

/-- `parse_values` preserves the operand count. -/
theorem parse_values_length (args : List JValue) (lst : List String)
    (h : parse_values args = .ok lst) : lst.length = args.length := by
  induction args generalizing lst with
  | nil =>
    rw [parse_values] at h
    cases h
    rfl
  | cons v vs ih =>
    rw [parse_values] at h
    cases hv : parse_value v with
    | error e => rw [hv] at h; cases h
    | ok s =>
      rw [hv] at h
      cases hvs : parse_values vs with
      | error e => rw [hvs] at h; cases h
      | ok ss =>
        rw [hvs] at h
        cases h
        simp [ih ss hvs]

/-- The style (if any) a single layer contributes, ignoring diagnostics. -/
def layer_result (jl : JValue) : Option TileStyle :=
  match (parse_layer_step jl).2 with
  | .ok o => o
  | .error _ => none

/-- When no layer raises, the loop returns exactly the valid layers'
styles in input order. -/
theorem parse_layers_go_ok (layers : List JValue)
    (h : ∀ jl ∈ layers, ∃ o, (parse_layer_step jl).2 = .ok o) :
    (parse_layers_go layers).2 = .ok (layers.filterMap layer_result) := by
  induction layers with
  | nil => simp [parse_layers_go]
  | cons jl rest ih =>
    obtain ⟨o, ho⟩ := h jl (by simp)
    have hrest := ih (fun x hx => h x (by simp [hx]))
    simp only [parse_layers_go, ho, hrest, List.filterMap_cons, layer_result]
    cases o <;> simp [layer_result, ho]

/-- The length of `filterMap` counts the elements mapped to `some`. -/
theorem length_filterMap_eq_countP {α β : Type} (f : α → Option β) (l : List α) :
    (l.filterMap f).length = l.countP (fun x => (f x).isSome) := by
  induction l with
  | nil => simp
  | cons x xs ih =>
    cases hx : f x <;> simp [List.filterMap_cons, hx, List.countP_cons, ih]

/-! ## Claims -/

/-- C1, counterexample: at the unsupported input `None`, `parse_value`
does not fail with an error — it succeeds with the placeholder string
`"?"` (after printing a console diagnostic), so the claim that every
non-array/non-string/non-integer value produces an unsupported-value
error is false of this code. -/
theorem parse_value_none_placeholder_cex :
    parse_value .null = .ok "?"
    ∧ ¬ ∃ e : PyErr, parse_value .null = .error e := by
  have hv : parse_value .null = .ok "?" := by simp [parse_value, isInstInt]
  refine ⟨hv, ?_⟩
  rintro ⟨e, he⟩
  rw [hv] at he
  cases he

/-- C1, amended: for every input value that is not an array, not a
string and not a Python integer (booleans count as integers, see C10),
`parse_value` succeeds with the placeholder string `"?"` instead of
failing with an unsupported-value error. -/
theorem parse_value_unsupported_placeholder (v : JValue)
    (harr : ∀ l, v ≠ .arr l) (hstr : ∀ s, v ≠ .str s)
    (hint : isInstInt v = false) :
    parse_value v = .ok "?" := by
  cases v <;> simp_all [parse_value, isInstInt]

/-- C1, witness for the amended claim: a float with fractional part. -/
theorem parse_value_unsupported_placeholder_witness :
    parse_value (.float (1/2)) = .ok "?" :=
  parse_value_unsupported_placeholder (.float (1/2))
    (fun l h => by cases h) (fun s h => by cases h) rfl

/-- The operator tokens `parse_expression` understands. -/
def knownOps : List String :=
  ["all", "any", "==", "!=", ">=", ">", "<=", "<", "has", "!has", "in", "!in"]

/-- C2: an expression array whose first element is not one of the known
operator tokens makes `parse_expression` fail with the unknown-operator
error `ValueError(json_expr)` — a typed error, not a crash, and no
rendering output is produced. -/
theorem parse_expression_unknown_op (op : JValue) (rest : List JValue)
    (h : ∀ s, op = .str s → s ∉ knownOps) :
    parse_expression (.arr (op :: rest)) = .error (.valueError (.arr (op :: rest))) := by
  have hf : ∀ tok, tok ∈ knownOps → isStrEq op tok = false := by
    intro tok htok
    cases op with
    | str s =>
      have hs := h s rfl
      simp only [isStrEq, decide_eq_false_iff_not]
      intro hst
      exact hs (hst ▸ htok)
    | _ => rfl
  have h1 := hf "all" (by simp [knownOps])
  have h2 := hf "any" (by simp [knownOps])
  have h3 := hf "==" (by simp [knownOps])
  have h4 := hf "!=" (by simp [knownOps])
  have h5 := hf ">=" (by simp [knownOps])
  have h6 := hf ">" (by simp [knownOps])
  have h7 := hf "<=" (by simp [knownOps])
  have h8 := hf "<" (by simp [knownOps])
  have h9 := hf "has" (by simp [knownOps])
  have h10 := hf "!has" (by simp [knownOps])
  have h11 := hf "in" (by simp [knownOps])
  have h12 := hf "!in" (by simp [knownOps])
  have hcmp : isCmpOp op = false := by
    simp [isCmpOp, h3, h4, h5, h6, h7, h8]
  rw [parse_expression, parse_expr_arr.eq_def]
  simp only [h1, h2, hcmp, h9, h10, h11, h12]
  simp

/-- C2, witness: the spec's own example `["nope", "x"]`. -/
theorem parse_expression_unknown_op_witness :
    parse_expression (.arr [.str "nope", .str "x"])
      = .error (.valueError (.arr [.str "nope", .str "x"])) :=
  parse_expression_unknown_op (.str "nope") [.str "x"]
    (fun s hs => by cases hs; decide)

/-- C3: a well-formed `all` (resp. `any`) expression with N ≥ 1 operands
renders to exactly the N parenthesized operand clauses joined by `AND`
(resp. `OR`): the clause list is the operand renderings individually
parenthesized, and its length is the operand count. -/
theorem parse_expression_all_any_join (args : List JValue) (lst : List String)
    (hne : args ≠ []) (hok : parse_values args = .ok lst) :
    parse_expression (.arr (.str "all" :: args))
        = .ok (pyJoin " AND " (lst.map fun s => "(" ++ s ++ ")"))
    ∧ parse_expression (.arr (.str "any" :: args))
        = .ok (pyJoin " OR " (lst.map fun s => "(" ++ s ++ ")"))
    ∧ (lst.map fun s => "(" ++ s ++ ")").length = args.length := by
  have hlen : lst.length = args.length := parse_values_length args lst hok
  have hlne : lst ≠ [] := by
    intro hl
    rw [hl] at hlen
    exact hne (List.eq_nil_of_length_eq_zero hlen.symm)
  have hand : ") AND (" = ")" ++ " AND " ++ "(" := rfl
  have hor : ") OR (" = ")" ++ " OR " ++ "(" := rfl
  refine ⟨?_, ?_, by simp [hlen]⟩
  · simp [parse_expression, parse_expr_arr.eq_def, parse_expr_join, isStrEq, hok]
    rw [hand, pyJoin_paren " AND " lst hlne]
  · simp [parse_expression, parse_expr_arr.eq_def, parse_expr_join, isStrEq, hok]
    rw [hor, pyJoin_paren " OR " lst hlne]

/-- C3, witness: two string operands; both joins have exactly two
parenthesized clauses. -/
theorem parse_expression_all_any_join_witness :
    parse_expression (.arr [.str "all", .str "a", .str "b"])
        = .ok (pyJoin " AND " (["'a'", "'b'"].map fun s => "(" ++ s ++ ")"))
    ∧ parse_expression (.arr [.str "any", .str "a", .str "b"])
        = .ok (pyJoin " OR " (["'a'", "'b'"].map fun s => "(" ++ s ++ ")"))
    ∧ (["'a'", "'b'"].map fun s => "(" ++ s ++ ")").length = [JValue.str "a", JValue.str "b"].length :=
  parse_expression_all_any_join [.str "a", .str "b"] ["'a'", "'b'"]
    (by simp) (by simp [parse_values, parse_value])

/-- C4: `["==", "$type", "Polygon"]` renders to exactly
`_geom_type = 'Polygon'`: a single `=`, the reserved key `$type` as the
unquoted pseudo-field `_geom_type`, and the string value in single
quotes. -/
theorem parse_expression_eq_type_polygon :
    parse_expression (.arr [.str "==", .str "$type", .str "Polygon"])
        = .ok "_geom_type = 'Polygon'"
    ∧ parse_key (.str "$type") = "_geom_type" := by
  constructor
  · simp [parse_expression, parse_expr_arr, parse_expr_cmp, parse_value, parse_key,
      isStrEq, isCmpOp, pyStr]
  · simp [parse_key, isStrEq]

/-- C5: `["!in", "class", "river", "lake"]` renders to exactly
`("class" IS NULL OR "class" NOT IN ('river', 'lake'))`: the null-check
disjunction is present and the whole result is wrapped in one pair of
parentheses. -/
theorem parse_expression_not_in_null_check :
    parse_expression (.arr [.str "!in", .str "class", .str "river", .str "lake"])
      = .ok "(\"class\" IS NULL OR \"class\" NOT IN ('river', 'lake'))" := by
  simp [parse_expression, parse_expr_arr, parse_expr_membership, parse_values, parse_value,
    parse_key, isStrEq, isCmpOp, pyStr, pyJoin]

/-- C6, counterexample: the claim quantifies over every layer list, but
a list containing one invalid layer whose filter has an unknown operator
(N = 1, M = 0, since `layer_result` is `none` for it) makes
`parse_layers` abort with the uncaught `ValueError` instead of producing
the length-0 StyleRule list the claim demands. -/
theorem parse_layers_raising_layer_cex :
    layer_result badFilterLayer = none
    ∧ (parse_layers [badFilterLayer]).2
        = .error (.valueError (.arr [.str "nope", .str "x"])) := by
  have hstep : (parse_layer_step badFilterLayer).2
      = .error (.valueError (.arr [.str "nope", .str "x"])) := by
    simp [parse_layer_step, badFilterLayer, pyGetItem, pyContains, lookupField,
      isStrEq, parse_expression, parse_expr_arr.eq_def, isCmpOp]
  exact ⟨by simp [layer_result, hstep], by simp [parse_layers, parse_layers_go, hstep]⟩

/-- C6, amended: when every layer in the list is processed without an
uncaught exception (each either yields a StyleRule or is skipped),
`parse_layers` returns exactly the styles of the valid layers
(`layer_result` = `some`), in the input layers' relative order
(`filterMap` keeps the order of its source list), and their number M is
the count of valid layers.  A layer that raises — e.g. one whose filter
expression is invalid — instead aborts the whole parse with that
exception (see the counterexample). -/
theorem parse_layers_valid_subset (layers : List JValue)
    (h : ∀ jl ∈ layers, ∃ o, (parse_layer_step jl).2 = .ok o) :
    (parse_layers layers).2 = .ok { styles := layers.filterMap layer_result }
    ∧ (layers.filterMap layer_result).length
        = layers.countP (fun jl => (layer_result jl).isSome) := by
  have hgo := parse_layers_go_ok layers h
  constructor
  · simp [parse_layers, hgo]
  · exact length_filterMap_eq_countP layer_result layers

/-- C6, witness for the amended claim: three layers of which exactly the
first is valid (the second is a silent `background` skip, the third an
unknown-type skip). -/
theorem parse_layers_valid_subset_witness :
    (parse_layers [fillLayer, bgLayer, unknownLayer]).2
        = .ok { styles := [fillLayer, bgLayer, unknownLayer].filterMap layer_result }
    ∧ ([fillLayer, bgLayer, unknownLayer].filterMap layer_result).length
        = [fillLayer, bgLayer, unknownLayer].countP (fun jl => (layer_result jl).isSome) :=
  parse_layers_valid_subset [fillLayer, bgLayer, unknownLayer] (by
    intro jl hjl
    simp only [List.mem_cons, List.not_mem_nil, or_false] at hjl
    rcases hjl with h | h | h
    all_goals subst h
    · exact ⟨_, rfl⟩
    · exact ⟨_, rfl⟩
    · exact ⟨_, rfl⟩)

/-- C7: a layer whose `type` is `background` yields no style and no
diagnostic — the skip happens before anything else is read and prints
nothing. -/
theorem background_layer_silent_skip (json_layer : JValue)
    (h : pyGetItem json_layer "type" = .ok (.str "background")) :
    parse_layer_step json_layer = ([], .ok none) := by
  simp [parse_layer_step, h, isStrEq]

/-- C7, witness: a concrete background layer. -/
theorem background_layer_silent_skip_witness :
    parse_layer_step bgLayer = ([], .ok none) :=
  background_layer_silent_skip bgLayer (by simp [bgLayer, pyGetItem, lookupField])

/-- C8: a fill layer whose paint object has no `fill-color` yields no
style and exactly one diagnostic. -/
theorem fill_without_color_one_diag (json_layer : JValue) (pf : List (String × JValue))
    (hpaint : pyGetItem json_layer "paint" = .ok (.obj pf))
    (hno : lookupField pf "fill-color" = none) :
    parse_fill_layer json_layer = ([.skippingFillWithoutFillColor (.obj pf)], .ok none)
    ∧ [Diag.skippingFillWithoutFillColor (.obj pf)].length = 1 := by
  refine ⟨?_, rfl⟩
  simp [parse_fill_layer, hpaint, pyContains, hno]

/-- C8, witness: a layer with the empty paint object. -/
theorem fill_without_color_one_diag_witness :
    parse_fill_layer emptyFillLayer = ([.skippingFillWithoutFillColor (.obj [])], .ok none)
    ∧ [Diag.skippingFillWithoutFillColor (.obj [])].length = 1 :=
  fill_without_color_one_diag emptyFillLayer []
    (by simp [emptyFillLayer, pyGetItem, lookupField]) rfl

/-- C9: expression rendering is deterministic — `parse_expression` is a
pure function of its input (the Python function reads no state other
than its argument), so two runs on equal inputs yield
character-for-character identical strings. -/
theorem parse_expression_deterministic (e1 e2 : JValue) (h : e1 = e2) :
    parse_expression e1 = parse_expression e2 := by rw [h]

/-- C9, witness: two runs on the same concrete expression. -/
theorem parse_expression_deterministic_witness :
    parse_expression (.arr [.str "has", .str "name"])
      = parse_expression (.arr [.str "has", .str "name"]) :=
  parse_expression_deterministic (.arr [.str "has", .str "name"])
    (.arr [.str "has", .str "name"]) rfl

/-- C10: a boolean passes the `isinstance(json_value, int)` check (bools
are ints in Python), so `parse_value` renders it via `str(...)` as
`True`/`False` rather than treating it as an unsupported type. -/
theorem parse_value_bool_as_int (b : Bool) :
    isInstInt (.bool b) = true
    ∧ parse_value (.bool b) = .ok (if b then "True" else "False") := by
  cases b <;> simp [parse_value, isInstInt, pyStr]
